import Mathlib

/-!
Verification of the FlagScale distributed job lifecycle core: path resolution,
experiment layout, hostfile parsing, per-host run/stop script generation
(`flagscale/runner/backend/backend_native_compress.py`) and the CLI action
dispatcher (`flagscale/cli.py`), as a shallow embedding in Lean.
-/

namespace FS

/-- Decidable equality for `Except`, needed to evaluate outcomes of the
embedded fallible operations on concrete inputs. -/
instance {ε α : Type} [DecidableEq ε] [DecidableEq α] :
    DecidableEq (Except ε α) := fun x y =>
  match x, y with
  | .ok a, .ok b =>
      if h : a = b then .isTrue (congrArg Except.ok h)
      else .isFalse fun hc => h (Except.ok.inj hc)
  | .error a, .error b =>
      if h : a = b then .isTrue (congrArg Except.error h)
      else .isFalse fun hc => h (Except.error.inj hc)
  | .ok _, .error _ => .isFalse fun hc => Except.noConfusion hc
  | .error _, .ok _ => .isFalse fun hc => Except.noConfusion hc

/-! ## POSIX path primitives (model of `os.path` on POSIX) -/

/-- Model of `os.path.isabs` on POSIX: a path is absolute iff it starts with a slash. -/
def isAbs (p : String) : Bool := p.data.head? == some '/'

/-- Whether a path ends with a slash (used by the `os.path.join` model). -/
def endsSlash (p : String) : Bool := p.data.getLast? == some '/'

/-- Model of binary `os.path.join` on POSIX: an absolute second component wins;
otherwise the components are joined, inserting a separator unless the first
component is empty or already ends with a slash. -/
def joinPath (a b : String) : String :=
  if isAbs b then b
  else if a = "" then b
  else if endsSlash a then a ++ b
  else a ++ "/" ++ b

theorem isAbs_append_left (a b : String) (h : isAbs a = true) :
    isAbs (a ++ b) = true := by
  unfold isAbs at *
  rw [String.data_append]
  cases hd : a.data with
  | nil => rw [hd] at h; simp at h
  | cons c t => rw [hd] at h; simpa using h

theorem ne_empty_of_isAbs (a : String) (h : isAbs a = true) : a ≠ "" := by
  intro he
  subst he
  simp [isAbs] at h

theorem isAbs_joinPath (a b : String) (h : isAbs a = true) :
    isAbs (joinPath a b) = true := by
  unfold joinPath
  by_cases hb : isAbs b = true
  · simp [hb]
  · simp only [hb]
    rw [if_neg (ne_empty_of_isAbs a h)]
    by_cases hs : endsSlash a = true
    · simp [hs, isAbs_append_left a b h]
    · simp only [hs, if_neg, Bool.false_eq_true, if_false]
      exact isAbs_append_left (a ++ "/") b (isAbs_append_left a "/" h)

theorem joinPath_eq_append (a b : String) (ha : a ≠ "")
    (hs : endsSlash a = false) (hb : isAbs b = false) :
    joinPath a b = a ++ "/" ++ b := by
  unfold joinPath
  rw [hb, if_neg ha, hs]
  simp

/-! ## PathResolver (spec §4.1) -/

/-- Modelled from the spec: `resolve_path` from `flagscale/runner/utils.py`
(the module is absent from `src/`; only its unit tests are present).
"absolute inputs pass through unchanged; relative inputs are joined against
`base`" (spec §4.1), with `base` the current working directory.  The
existence-checking options (`check_exists`, `raise_missing`) only warn/fail and
do not change the returned path, so they are outside this pure model. -/
def resolve_path (cwd p : String) : String :=
  if isAbs p then p else joinPath cwd p

theorem isAbs_resolve_path (cwd p : String) (h : isAbs cwd = true) :
    isAbs (resolve_path cwd p) = true := by
  unfold resolve_path
  by_cases hp : isAbs p = true
  · simp [hp]
  · simp only [hp, Bool.false_eq_true, if_false]
    exact isAbs_joinPath cwd p h

/-- C6: `resolve` is idempotent: absolute inputs pass through unchanged and
relative inputs are joined against the absolute working directory, so the
result is always absolute and a second resolution is a no-op. -/
theorem resolve_path_idempotent (cwd p : String) (h : isAbs cwd = true) :
    resolve_path cwd (resolve_path cwd p) = resolve_path cwd p := by
  have habs := isAbs_resolve_path cwd p h
  unfold resolve_path at habs ⊢
  by_cases hp : isAbs p = true
  · simp [hp]
  · simp only [hp, Bool.false_eq_true, if_false] at habs ⊢
    simp [habs]

/-- C6 witness: resolving a relative path against the absolute working
directory `/work` yields `/work/data/train`, and resolving again is a no-op. -/
theorem resolve_path_idempotent_witness :
    isAbs "/work" = true ∧
    resolve_path "/work" "data/train" = "/work/data/train" ∧
    resolve_path "/work" (resolve_path "/work" "data/train") =
      resolve_path "/work" "data/train" :=
  ⟨by decide, by decide, resolve_path_idempotent "/work" "data/train" (by decide)⟩

/-! ## ExperimentLayout (spec §4.2) -/

/-- Python/OmegaConf truthiness for a string-valued config field: an absent
field is modelled as `""`, and `""` is falsy exactly like `None`. -/
def pyTruthy (s : String) : Bool := !(s == "")

/-- The logging substructure of the configuration
(`config.compress.system.logging`).  Fields that may be unset before
`setup_logging_dirs` runs are modelled as `""` (falsy), matching
OmegaConf's `get(key, None)` truthiness. -/
structure LoggingConfig where
  log_dir : String := ""
  scripts_dir : String := ""
  pids_dir : String := ""
  tensorboard_dir : String := ""
  wandb_save_dir : String := ""
deriving Repr, DecidableEq

/-- Modelled from the spec: `setup_exp_dir` from `flagscale/runner/utils.py`
(absent from `src/`; its unit tests are in
`src/tests/unit_tests/runner/test_path_utils.py`).  Resolves the configured
experiment root against the working directory, creates it (the effect is
returned as the list of directories created) and returns the absolute path. -/
def setup_exp_dir (cwd exp_dir : String) : String × List String :=
  let d := resolve_path cwd exp_dir
  (d, [d])

/-- Modelled from the spec: `setup_logging_dirs` from
`flagscale/runner/utils.py` (absent from `src/`; its unit tests are in
`src/tests/unit_tests/runner/test_path_utils.py`).  "if `loggingConfig`
already specifies an explicit log directory, that value (resolved to
absolute) is used verbatim; otherwise `logDir = <expDir>/<subdir>`.  Derives
and writes back `scriptsDir = <logDir>/scripts` and `pidsDir =
<logDir>/pids` into the (mutable) logging configuration" (spec §4.2).
Returns the updated configuration and the log directory. -/
def setup_logging_dirs (cwd : String) (lc : LoggingConfig) (exp_dir : String)
    (log_subdir : String := "logs") : LoggingConfig × String :=
  let log_dir :=
    if pyTruthy lc.log_dir then resolve_path cwd lc.log_dir
    else joinPath exp_dir log_subdir
  ({ lc with
      log_dir := log_dir
      scripts_dir := joinPath log_dir "scripts"
      pids_dir := joinPath log_dir "pids" },
   log_dir)

/-- C7: with no explicit log directory configured, the log directory is
`<expDir>/<subdir>`; in every case `scriptsDir = <logDir>/scripts` and
`pidsDir = <logDir>/pids` are written back into the logging configuration as
absolute paths, and an explicitly configured log directory is used verbatim
after resolution to an absolute path. -/
theorem setup_logging_dirs_spec (cwd : String) (lc : LoggingConfig)
    (exp_dir subdir : String) (hcwd : isAbs cwd = true)
    (hexp : isAbs exp_dir = true) :
    (setup_logging_dirs cwd lc exp_dir subdir).1.log_dir =
      (setup_logging_dirs cwd lc exp_dir subdir).2 ∧
    (setup_logging_dirs cwd lc exp_dir subdir).1.scripts_dir =
      joinPath (setup_logging_dirs cwd lc exp_dir subdir).2 "scripts" ∧
    (setup_logging_dirs cwd lc exp_dir subdir).1.pids_dir =
      joinPath (setup_logging_dirs cwd lc exp_dir subdir).2 "pids" ∧
    isAbs (setup_logging_dirs cwd lc exp_dir subdir).2 = true ∧
    isAbs (setup_logging_dirs cwd lc exp_dir subdir).1.scripts_dir = true ∧
    isAbs (setup_logging_dirs cwd lc exp_dir subdir).1.pids_dir = true ∧
    (lc.log_dir = "" →
      (setup_logging_dirs cwd lc exp_dir subdir).2 = joinPath exp_dir subdir) ∧
    (lc.log_dir ≠ "" →
      (setup_logging_dirs cwd lc exp_dir subdir).2 = resolve_path cwd lc.log_dir) := by
  have habs : isAbs (setup_logging_dirs cwd lc exp_dir subdir).2 = true := by
    unfold setup_logging_dirs
    by_cases h : pyTruthy lc.log_dir = true
    · simp only [h, if_true]
      exact isAbs_resolve_path cwd lc.log_dir hcwd
    · simp only [h, Bool.false_eq_true, if_false]
      exact isAbs_joinPath exp_dir subdir hexp
  refine ⟨rfl, rfl, rfl, habs, ?_, ?_, ?_, ?_⟩
  · exact isAbs_joinPath _ "scripts" habs
  · exact isAbs_joinPath _ "pids" habs
  · intro h
    unfold setup_logging_dirs
    simp [pyTruthy, h]
  · intro h
    unfold setup_logging_dirs
    simp [pyTruthy, h]

/-- C7 witness: the spec's concrete example — `expDir = "/tmp/exp1"`, no
explicit log directory — yields `logDir = "/tmp/exp1/logs"`,
`scriptsDir = "/tmp/exp1/logs/scripts"`, `pidsDir = "/tmp/exp1/logs/pids"`. -/
theorem setup_logging_dirs_spec_witness :
    isAbs "/cwd" = true ∧ isAbs "/tmp/exp1" = true ∧
    (setup_logging_dirs "/cwd" {} "/tmp/exp1" "logs").2 = "/tmp/exp1/logs" ∧
    (setup_logging_dirs "/cwd" {} "/tmp/exp1" "logs").1.scripts_dir =
      "/tmp/exp1/logs/scripts" ∧
    (setup_logging_dirs "/cwd" {} "/tmp/exp1" "logs").1.pids_dir =
      "/tmp/exp1/logs/pids" := by
  have h := setup_logging_dirs_spec "/cwd" {} "/tmp/exp1" "logs"
    (by decide) (by decide)
  have hld : (setup_logging_dirs "/cwd" {} "/tmp/exp1" "logs").2 = "/tmp/exp1/logs" :=
    (h.2.2.2.2.2.2.1 rfl).trans (by decide)
  refine ⟨by decide, by decide, hld, ?_, ?_⟩
  · rw [h.2.1, hld]; decide
  · rw [h.2.2.1, hld]; decide

/-! ## HostPool (spec §4.3) -/

/-- One parsed hostfile entry (spec §3). -/
structure HostEntry where
  host : String
  slotCount : Nat
  nodeRank : Nat
deriving Repr, DecidableEq

/-- Whitespace test for hostfile trimming (space, tab, CR, LF). -/
def isSpaceChar (c : Char) : Bool :=
  c == ' ' || c == '\t' || c == '\r' || c == '\n'

/-- Strip leading and trailing whitespace from a character list
(model of `str.strip`). -/
def trimChars (l : List Char) : List Char :=
  ((l.dropWhile isSpaceChar).reverse.dropWhile isSpaceChar).reverse

/-- Split a character list into whitespace-separated words
(model of `str.split`). -/
def wordsAux : List Char → List Char → List (List Char)
  | cur, [] => if cur.isEmpty then [] else [cur.reverse]
  | cur, c :: rest =>
      if isSpaceChar c then
        if cur.isEmpty then wordsAux [] rest else cur.reverse :: wordsAux [] rest
      else wordsAux (c :: cur) rest

/-- The whitespace-separated tokens of a hostfile line. -/
def lineTokens (l : String) : List String :=
  (wordsAux [] (trimChars l.data)).map String.mk

/-- Decimal digit value of a character, if it is a digit. -/
def digitVal (c : Char) : Option Nat :=
  if c.isDigit then some (c.toNat - 48) else none

/-- Parse a non-empty all-digit character list as a decimal number
(model of `int(s)` on the `slots=` field). -/
def digitsToNat : Nat → List Char → Option Nat
  | acc, [] => some acc
  | acc, c :: rest =>
      match digitVal c with
      | some d => digitsToNat (acc * 10 + d) rest
      | none => none

/-- Parse a decimal number from a character list; empty input is no number. -/
def parseNatChars : List Char → Option Nat
  | [] => none
  | l => digitsToNat 0 l

/-- Modelled from the spec: a hostfile line is significant unless it is blank
or a comment line (spec §4.3: "skip blank lines and comment lines"). -/
def is_content_line (l : String) : Bool :=
  let t := trimChars l.data
  !t.isEmpty && !(t.head? == some '#')

/-- Modelled from the spec: the optional `slots=N` field of a hostfile line;
defaults to 1 slot when absent. -/
def parse_slot_count (toks : List String) : Nat :=
  (toks.filterMap fun t =>
    if List.isPrefixOf "slots=".data t.data then parseNatChars (t.data.drop 6)
    else none).headD 1

/-- Modelled from the spec: one significant hostfile line names a host plus an
optional slot count and optional key=value metadata (spec §4.3). -/
def parse_host_line (l : String) : String × Nat :=
  let toks := lineTokens l
  (toks.headD "", parse_slot_count toks)

/-- Assign zero-based node ranks to parsed host records in order. -/
def rank_entries (start : Nat) : List (String × Nat) → List HostEntry
  | [] => []
  | r :: t => ⟨r.1, r.2, start⟩ :: rank_entries (start + 1) t

/-- Modelled from the spec: `parse_hostfile` from `flagscale/runner/utils.py`
(absent from `src/`).  The argument is the hostfile's contents as a list of
lines, or `none` when no hostfile is configured, which yields a single
synthetic local entry with one slot and rank 0 (spec §4.3).  The
`HostfileNotFound` case (configured path that does not exist) is a filesystem
error outside this pure model. -/
def parse_hostfile : Option (List String) → List HostEntry
  | none => [⟨"localhost", 1, 0⟩]
  | some lines => rank_entries 0 ((lines.filter is_content_line).map parse_host_line)

theorem rank_entries_length (rs : List (String × Nat)) (start : Nat) :
    (rank_entries start rs).length = rs.length := by
  induction rs generalizing start with
  | nil => rfl
  | cons r t ih => simp [rank_entries, ih]

theorem rank_entries_nodeRank (rs : List (String × Nat)) (start i : Nat)
    (h : i < (rank_entries start rs).length) :
    ((rank_entries start rs).get ⟨i, h⟩).nodeRank = start + i := by
  induction rs generalizing start i with
  | nil => simp [rank_entries] at h
  | cons r t ih =>
    cases i with
    | zero => simp [rank_entries]
    | succ j =>
      have h' : j < (rank_entries (start + 1) t).length := by
        have hl := h
        simp only [rank_entries, List.length_cons] at hl
        omega
      simp only [rank_entries, List.get_cons_succ]
      rw [ih (start + 1) j h']
      omega

/-- C5: the `i`-th entry of the parsed pool has `nodeRank = i` (zero-based,
unique, contiguous, strictly by line order), the pool length equals the number
of non-blank non-comment lines, and an absent hostfile yields exactly one
synthetic local entry with rank 0 and one slot. -/
theorem parse_hostfile_ranks (lines : List String) :
    (parse_hostfile (some lines)).length =
      (lines.filter is_content_line).length ∧
    (∀ i (h : i < (parse_hostfile (some lines)).length),
      ((parse_hostfile (some lines)).get ⟨i, h⟩).nodeRank = i) ∧
    parse_hostfile none = [⟨"localhost", 1, 0⟩] := by
  refine ⟨?_, ?_, rfl⟩
  · unfold parse_hostfile
    rw [rank_entries_length, List.length_map]
  · intro i h
    unfold parse_hostfile at h ⊢
    simpa using rank_entries_nodeRank _ 0 i h

/-- C5 witness: a hostfile with a blank line and a comment line parses to two
entries with contiguous ranks 0 and 1 and the stated slot counts. -/
theorem parse_hostfile_ranks_witness :
    (parse_hostfile (some ["node-a slots=4", "", "# comment", "node-b"])).length = 2 ∧
    1 < (parse_hostfile (some ["node-a slots=4", "", "# comment", "node-b"])).length ∧
    ((parse_hostfile (some ["node-a slots=4", "", "# comment", "node-b"])).get
      ⟨1, by decide⟩).nodeRank = 1 := by
  refine ⟨?_, by decide, ?_⟩
  · exact (parse_hostfile_ranks ["node-a slots=4", "", "# comment", "node-b"]).1.trans
      (by decide)
  · exact (parse_hostfile_ranks ["node-a slots=4", "", "# comment", "node-b"]).2.1 1
      (by decide)

/-! ## Configuration tree (the fields consumed by the compress backend) -/

/-- `config.experiment.task`: `type` is read with `getattr(…, "type", None)`,
so an absent attribute is `none`. -/
structure TaskConfig where
  type? : Option String := none
  entrypoint : String := ""
deriving Repr, DecidableEq

/-- `config.experiment.cmds`: optional pre-start / post-stop shell hooks,
each read with `get(…, "")`. -/
structure CmdsConfig where
  before_start : String := ""
  after_stop : String := ""
deriving Repr, DecidableEq

/-- `config.experiment.runner`: the hostfile is abstracted as the contents
(list of lines) of an existing file, or `none` when not configured;
`no_shared_fs` is read with `get(…, False)`. -/
structure RunnerConfig where
  hostfile : Option (List String) := none
  no_shared_fs : Bool := false
deriving Repr, DecidableEq

/-- `config.experiment`. -/
structure ExperimentConfig where
  exp_dir : String := ""
  task : TaskConfig := {}
  runner : RunnerConfig := {}
  envs : List (String × String) := []
  cmds : Option CmdsConfig := none
deriving Repr, DecidableEq

/-- `config.compress.system`. -/
structure SystemConfig where
  save_dir : String := ""
  logging : LoggingConfig := {}
deriving Repr, DecidableEq

/-- `config.compress`. -/
structure CompressConfig where
  system : SystemConfig := {}
deriving Repr, DecidableEq

/-- The resolved configuration tree consumed by the compress backend. -/
structure Config where
  experiment : ExperimentConfig := {}
  compress : CompressConfig := {}
deriving Repr, DecidableEq

/-- `cmds_config.get("before_start", "")` with `cmds_config` possibly absent
(`generate_run_script`, lines 96-100). -/
def before_start_of (cfg : Config) : String :=
  match cfg.experiment.cmds with
  | some c => c.before_start
  | none => ""

/-- `cmds_config.get("after_stop", "")` with `cmds_config` possibly absent
(`generate_stop_script`, lines 145-149). -/
def after_stop_of (cfg : Config) : String :=
  match cfg.experiment.cmds with
  | some c => c.after_stop
  | none => ""

/-! ## ScriptGenerator: run script (`generate_run_script`, lines 74-132) -/

/-- The per-host output file chosen at lines 78-84: with `no_shared_fs` the
single-named `host.output`, otherwise the per-host
`host_<rank>_<host>.output`. -/
def run_output_file (log_dir : String) (no_shared_fs : Bool) (node_rank : Nat)
    (host : String) : String :=
  if no_shared_fs then joinPath log_dir "host.output"
  else joinPath log_dir ("host_" ++ toString node_rank ++ "_" ++ host ++ ".output")

/-- The per-host run script path (lines 85-87). -/
def run_script_file (scripts_dir : String) (node_rank : Nat) (host : String) : String :=
  joinPath scripts_dir ("host_" ++ toString node_rank ++ "_" ++ host ++ "_run.sh")

/-- The per-host pid file path (line 88, same expression at line 141). -/
def pid_file_path (pids_dir : String) (node_rank : Nat) (host : String) : String :=
  joinPath pids_dir ("host_" ++ toString node_rank ++ "_" ++ host ++ ".pid")

/-- The three execution modes of the generated run script
(lines 116-126). -/
inductive ExecMode where
  | diagnostic
  | backgroundMode (out pid_file : String)
  | foreground (out : String)
deriving Repr, DecidableEq

/-- The branch structure at lines 116-126: `with_test` first, then
`background`, else foreground. -/
def run_exec_mode (with_test background : Bool) (out pid_file : String) : ExecMode :=
  if with_test then .diagnostic
  else if background then .backgroundMode out pid_file
  else .foreground out

/-- The exact text of the execution statement written for each mode
(lines 117, 123, 126), including the trailing newline of the `f.write`. -/
def emitExec (m : ExecMode) : String :=
  match m with
  | .diagnostic => "bash -c \"$cmd; sync\" \n"
  | .backgroundMode out pid_file =>
      "nohup bash -c \"$cmd; sync\" >> " ++ out ++ " 2>&1 & echo $! > "
        ++ pid_file ++ "\n"
  | .foreground out => "bash -c \"$cmd; sync\" >> " ++ out ++ " 2>&1\n"

/-- One statement of the generated run script, one per `f.write` call of
`generate_run_script` (lines 102-127). -/
inductive RunStmt where
  | hook (s : String)
  | mkdirP (d : String)
  | blank
  | cdTo (d : String)
  | exportPythonPath (dirs : List String)
  | setCmdVar (cmd : String)
  | execStmt (m : ExecMode)
deriving Repr, DecidableEq

/-- The exact text each statement writes (cf. the `f.write` calls at
lines 102-127), including the trailing newline. -/
def emitRunStmt : RunStmt → String
  | .hook s => s ++ "\n"
  | .mkdirP d => "mkdir -p " ++ d ++ "\n"
  | .blank => "\n"
  | .cdTo d => "cd " ++ d ++ "\n"
  | .exportPythonPath dirs =>
      "export PYTHONPATH=" ++ String.intercalate ":" dirs ++ "\n"
  | .setCmdVar cmd => "cmd=\"" ++ cmd ++ "\"\n"
  | .execStmt m => emitExec m

/-- The full byte content of a generated run script: the shebang write at
line 102 followed by the statement writes. -/
def run_script_content (stmts : List RunStmt) : String :=
  "#!/bin/bash\n\n" ++ String.join (stmts.map emitRunStmt)

/-- Embedding of `NativeCompressBackend.generate_run_script`
(`backend_native_compress.py` lines 74-132).  `pkg_dir` is the ambient
`get_pkg_dir()`; the configuration fields are read exactly as in the source;
the result is the script path (returned at line 132) and the sequence of
statements written to it.  The `os.makedirs`/`chmod`/`fsync` filesystem calls
have no bearing on the script's content and are not modelled. -/
def generate_run_script (pkg_dir : String) (config : Config) (host : String)
    (node_rank : Nat) (cmd : String) (background : Bool := true)
    (with_test : Bool := false) : String × List RunStmt :=
  let system_config := config.compress.system
  let logging_config := system_config.logging
  let no_shared_fs := config.experiment.runner.no_shared_fs
  let host_output_file := run_output_file logging_config.log_dir no_shared_fs node_rank host
  let host_run_script_file := run_script_file logging_config.scripts_dir node_rank host
  let host_pid_file := pid_file_path logging_config.pids_dir node_rank host
  let compress_dir := joinPath (joinPath pkg_dir "flagscale") "compress"
  let megatron_dir := joinPath (joinPath pkg_dir "flagscale") "train"
  let before_start := before_start_of config
  let mode := run_exec_mode with_test background host_output_file host_pid_file
  (host_run_script_file,
   [.hook before_start,
    .mkdirP system_config.save_dir,
    .mkdirP logging_config.log_dir,
    .mkdirP logging_config.pids_dir,
    .mkdirP logging_config.tensorboard_dir,
    .mkdirP logging_config.wandb_save_dir,
    .blank,
    .cdTo pkg_dir,
    .blank,
    .exportPythonPath [compress_dir, megatron_dir, pkg_dir],
    .blank,
    .setCmdVar cmd,
    .blank,
    .execStmt mode,
    .blank])

/-- What the execution statement does when the script later runs, as an
ordered action trace.  A detached spawn starts the command without waiting;
`capturePid` records the pid handed back by the spawn (`$!`); `runSync` runs
the command to completion before the next action. -/
inductive RunAction where
  | runSync (cmd : String) (out : Option String)
  | fsSync
  | spawnDetached (cmd : String) (out : String)
  | capturePid (pid_file : String)
deriving Repr, DecidableEq

/-- Bash semantics of the three emitted execution statements:
`bash -c "$cmd; sync"` runs synchronously with live output then syncs;
`nohup … >> out 2>&1 & echo $! > pid` spawns detached with output appended to
`out` and immediately records the spawned pid; `bash -c "$cmd; sync" >> out
2>&1` runs synchronously with output appended. -/
def execTrace (cmd : String) : ExecMode → List RunAction
  | .diagnostic => [.runSync cmd none, .fsSync]
  | .backgroundMode out pid_file => [.spawnDetached cmd out, .capturePid pid_file]
  | .foreground out => [.runSync cmd (some out), .fsSync]

/-- Whether a run action is a synchronous (blocking, runs-to-completion)
execution of the command. -/
def isRunSync : RunAction → Bool
  | .runSync _ _ => true
  | _ => false

/-- A demonstration configuration used to evaluate the generators on concrete
input. -/
def demoConfig : Config :=
  { experiment :=
      { exp_dir := "/exp"
        task := { type? := some "compress", entrypoint := "compress.py" }
        runner := { hostfile := none, no_shared_fs := true }
        envs := []
        cmds := none }
    compress :=
      { system :=
          { save_dir := "/save"
            logging :=
              { log_dir := "/logs"
                scripts_dir := "/logs/scripts"
                pids_dir := "/logs/pids"
                tensorboard_dir := "/tb"
                wandb_save_dir := "/wandb" } } } }

theorem isAbs_append_eq (a b : String) (ha : a.data ≠ []) :
    isAbs (a ++ b) = isAbs a := by
  unfold isAbs
  rw [String.data_append]
  cases hd : a.data with
  | nil => exact absurd hd ha
  | cons c t => simp [hd]

theorem data_append_ne_nil (a b : String) (h : a.data ≠ []) :
    (a ++ b).data ≠ [] := by
  rw [String.data_append]
  intro hc
  exact h (List.append_eq_nil.mp hc).1

/-- C1 counterexample: with `noSharedFilesystem = true`, `log_dir = "/logs"`,
`host = "node-a"`, `rank = 0`, the code picks the shared-named
`/logs/host.output`, not the claimed per-host `/logs/host_0_node-a.output`;
the per-host name is produced when the flag is `false`; and the generated
background run script indeed embeds `/logs/host.output` as the output path. -/
theorem run_output_file_counterexample :
    run_output_file "/logs" true 0 "node-a" = "/logs/host.output" ∧
    run_output_file "/logs" true 0 "node-a" ≠ "/logs/host_0_node-a.output" ∧
    run_output_file "/logs" false 0 "node-a" = "/logs/host_0_node-a.output" ∧
    RunStmt.execStmt (.backgroundMode "/logs/host.output" "/logs/pids/host_0_node-a.pid")
      ∈ (generate_run_script "/pkg" demoConfig "node-a" 0 "run-cmd" true false).2 := by
  decide

/-- C1 amended: for every configuration, host and rank, the run script's
output path with `noSharedFilesystem = true` is the single-named
`<logDir>/host.output` (each host has its own local disk, so one name cannot
collide), and with `noSharedFilesystem = false` it is the per-host unique
`<logDir>/host_<rank>_<host>.output`; the generated script's execution
statement uses exactly that path. -/
theorem run_output_file_paths (pkg_dir : String) (cfg : Config) (host : String)
    (node_rank : Nat) (cmd : String) (background : Bool)
    (ha : cfg.compress.system.logging.log_dir ≠ "")
    (hs : endsSlash cfg.compress.system.logging.log_dir = false) :
    (cfg.experiment.runner.no_shared_fs = true →
      run_output_file cfg.compress.system.logging.log_dir
          cfg.experiment.runner.no_shared_fs node_rank host =
        cfg.compress.system.logging.log_dir ++ "/" ++ "host.output") ∧
    (cfg.experiment.runner.no_shared_fs = false →
      run_output_file cfg.compress.system.logging.log_dir
          cfg.experiment.runner.no_shared_fs node_rank host =
        cfg.compress.system.logging.log_dir ++ "/"
          ++ ("host_" ++ toString node_rank ++ "_" ++ host ++ ".output")) ∧
    RunStmt.execStmt (run_exec_mode false background
        (run_output_file cfg.compress.system.logging.log_dir
          cfg.experiment.runner.no_shared_fs node_rank host)
        (pid_file_path cfg.compress.system.logging.pids_dir node_rank host))
      ∈ (generate_run_script pkg_dir cfg host node_rank cmd background false).2 := by
  refine ⟨?_, ?_, ?_⟩
  · intro h
    rw [run_output_file, if_pos h]
    exact joinPath_eq_append _ _ ha hs (by decide)
  · intro h
    rw [run_output_file, h]
    simp only [Bool.false_eq_true, if_false]
    refine joinPath_eq_append _ _ ha hs ?_
    have h1 : ("host_" : String).data ≠ [] := by decide
    have h2 := data_append_ne_nil "host_" (toString node_rank) h1
    have h3 := data_append_ne_nil _ "_" h2
    have h4 := data_append_ne_nil _ host h3
    rw [isAbs_append_eq _ ".output" h4, isAbs_append_eq _ host h3,
      isAbs_append_eq _ "_" h2, isAbs_append_eq _ (toString node_rank) h1]
    decide
  · simp [generate_run_script]

/-- C1 amended witness: evaluating both flag values at `log_dir = "/logs"`,
`rank = 0`, `host = "node-a"`. -/
theorem run_output_file_paths_witness :
    ("/logs" : String) ≠ "" ∧ endsSlash "/logs" = false ∧
    run_output_file "/logs" true 0 "node-a" = "/logs" ++ "/" ++ "host.output" ∧
    run_output_file "/logs" false 0 "node-a" =
      "/logs" ++ "/" ++ ("host_" ++ toString 0 ++ "_" ++ "node-a" ++ ".output") := by
  have h := run_output_file_paths "/pkg" demoConfig "node-a" 0 "run-cmd" true
    (by decide) (by decide)
  refine ⟨by decide, by decide, h.1 rfl, ?_⟩
  have h' := run_output_file_paths "/pkg"
    { demoConfig with experiment :=
        { demoConfig.experiment with runner := { hostfile := none, no_shared_fs := false } } }
    "node-a" 0 "run-cmd" true (by decide) (by decide)
  exact h'.2.1 rfl

/-- C4: the generated run script executes the command in exactly one of three
modes: `withTest` gives synchronous live-output execution followed by a
filesystem sync and takes precedence over `background`; `background` without
`withTest` spawns the command detached with stdout/stderr appended to the
output file and captures the spawned pid into the pid file immediately (no
synchronous run-to-completion appears in that trace); otherwise the command
runs synchronously with output appended to the same output file. -/
theorem run_script_exec_modes (pkg_dir : String) (cfg : Config) (host : String)
    (node_rank : Nat) (cmd : String) (background with_test : Bool) :
    RunStmt.execStmt (run_exec_mode with_test background
        (run_output_file cfg.compress.system.logging.log_dir
          cfg.experiment.runner.no_shared_fs node_rank host)
        (pid_file_path cfg.compress.system.logging.pids_dir node_rank host))
      ∈ (generate_run_script pkg_dir cfg host node_rank cmd background with_test).2 ∧
    (∀ out pid_file, run_exec_mode true background out pid_file = .diagnostic) ∧
    (∀ out pid_file, execTrace cmd (run_exec_mode true background out pid_file) =
      [.runSync cmd none, .fsSync]) ∧
    (∀ out pid_file, execTrace cmd (run_exec_mode false true out pid_file) =
      [.spawnDetached cmd out, .capturePid pid_file]) ∧
    (∀ out pid_file,
      (execTrace cmd (run_exec_mode false true out pid_file)).all
        (fun a => !(isRunSync a)) = true) ∧
    (∀ out pid_file, execTrace cmd (run_exec_mode false false out pid_file) =
      [.runSync cmd (some out), .fsSync]) := by
  refine ⟨by simp [generate_run_script], ?_, ?_, ?_, ?_, ?_⟩ <;>
    intro out pid_file <;> simp [run_exec_mode, execTrace, isRunSync]

/-- Whether a generated statement is an environment-export statement. -/
def isExportStmt : RunStmt → Bool
  | .exportPythonPath _ => true
  | _ => false

/-- C9: the run script contains exactly one environment-export statement —
the `PYTHONPATH` line composed of the compress directory, the megatron/train
directory and the package root — and the experiment-level environment
variable overrides (`experiment.envs`) are never written into the script:
the generated script does not depend on them at all. -/
theorem run_script_single_export (pkg_dir : String) (cfg : Config) (host : String)
    (node_rank : Nat) (cmd : String) (background with_test : Bool)
    (envs : List (String × String)) :
    (generate_run_script pkg_dir cfg host node_rank cmd background with_test).2.countP
      (fun s => isExportStmt s) = 1 ∧
    (generate_run_script pkg_dir cfg host node_rank cmd background with_test).2.filter
      (fun s => isExportStmt s) =
      [.exportPythonPath [joinPath (joinPath pkg_dir "flagscale") "compress",
        joinPath (joinPath pkg_dir "flagscale") "train", pkg_dir]] ∧
    generate_run_script pkg_dir
      { cfg with experiment := { cfg.experiment with envs := envs } }
      host node_rank cmd background with_test =
      generate_run_script pkg_dir cfg host node_rank cmd background with_test := by
  refine ⟨?_, ?_, ?_⟩ <;>
    simp [generate_run_script, isExportStmt, before_start_of]

/-! ## ScriptGenerator: stop script (`generate_stop_script`, lines 134-164) -/

/-- A straight-line statement of the generated stop script. -/
inductive SimpleStmt where
  | readPidVar (var file : String)
  | pkillParent (var : String)
  | pkillPattern (pat : String)
  | hook (s : String)
deriving Repr, DecidableEq

/-- A stop-script statement: either straight-line or a file-existence branch
over straight-line statements. -/
inductive StopStmt where
  | simple (s : SimpleStmt)
  | ifFileThenElse (file : String) (thn els : List SimpleStmt)
deriving Repr, DecidableEq

/-- The exact text of one straight-line statement under the given
indentation, including the trailing newline of the `f.write`. -/
def emitSimple (indent : String) : SimpleStmt → String
  | .readPidVar var file => indent ++ var ++ "=$(cat " ++ file ++ ")\n"
  | .pkillParent var => indent ++ "pkill -P $" ++ var ++ "\n"
  | .pkillPattern pat => indent ++ "pkill -f \x27" ++ pat ++ "\x27\n"
  | .hook s => indent ++ s ++ "\n"

/-- The exact text of a stop-script statement (cf. the `f.write` calls at
lines 152-159). -/
def emitStop : StopStmt → String
  | .simple s => emitSimple "" s
  | .ifFileThenElse file thn els =>
      "if [ -f " ++ file ++ " ]; then\n"
        ++ String.join (thn.map (emitSimple "    "))
        ++ "else\n"
        ++ String.join (els.map (emitSimple "    "))
        ++ "fi\n"

/-- The statements `generate_stop_script` writes (lines 150-159): branch on
the pid file; when present, read the recorded pid into `$pid` and
parent-relative kill its children; when absent, pattern-kill `python`
processes; then the after-stop hook, unconditionally last. -/
def stop_script_stmts (pid_file after_stop : String) : List StopStmt :=
  [.ifFileThenElse pid_file
      [.readPidVar "pid" pid_file, .pkillParent "pid"]
      [.pkillPattern "python"],
   .simple (.hook after_stop)]

/-- The full byte content of a generated stop script: the shebang write at
line 151 followed by the statement writes. -/
def stop_script_content (pid_file after_stop : String) : String :=
  "#!/bin/bash\n\n" ++ String.join ((stop_script_stmts pid_file after_stop).map emitStop)

/-- Embedding of `NativeCompressBackend.generate_stop_script`
(`backend_native_compress.py` lines 134-164): returns the script path
(line 164) and the statements written.  As for the run script, the
`makedirs`/`chmod`/`fsync` calls do not affect the content and are not
modelled. -/
def generate_stop_script (config : Config) (host : String) (node_rank : Nat) :
    String × List StopStmt :=
  let logging_config := config.compress.system.logging
  let host_stop_script_file :=
    joinPath logging_config.scripts_dir
      ("host_" ++ toString node_rank ++ "_" ++ host ++ "_stop.sh")
  let host_pid_file := pid_file_path logging_config.pids_dir node_rank host
  (host_stop_script_file, stop_script_stmts host_pid_file (after_stop_of config))

/-- Sanity: the emitted stop-script text is byte-for-byte the text the source
writes. -/
theorem stop_script_content_eq :
    stop_script_content "/logs/pids/host_0_node-a.pid" "echo done" =
      "#!/bin/bash\n\nif [ -f /logs/pids/host_0_node-a.pid ]; then\n"
        ++ "    pid=$(cat /logs/pids/host_0_node-a.pid)\n    pkill -P $pid\n"
        ++ "else\n    pkill -f \x27python\x27\nfi\necho done\n" := by decide

/-- Host-visible state when a stop script runs: whether the pid file exists
and the pid recorded in it. -/
structure StopEnv where
  pidFilePresent : Bool
  recordedPid : Nat
deriving Repr, DecidableEq

/-- The process-level effects a stop script can perform:
`killChildrenOf p` is `pkill -P p` (terminate the children of `p`, not `p`);
`killPidDirect p` would be a direct kill of `p` (never emitted);
`killMatching pat` is `pkill -f pat`; `runHook s` runs a shell hook. -/
inductive StopAction where
  | killChildrenOf (pid : Nat)
  | killPidDirect (pid : Nat)
  | killMatching (pat : String)
  | runHook (s : String)
deriving Repr, DecidableEq

/-- Whether an action kills the given pid directly. -/
def isDirectKill (pid : Nat) : StopAction → Bool
  | .killPidDirect p => p == pid
  | _ => false

/-- Bash semantics of one straight-line statement: threads the value of the
`pid` shell variable and emits actions.  `$(cat file)` reads the recorded pid
(only reachable in the branch where the file exists). -/
def evalSimple (env : StopEnv) (pv : Option Nat) :
    SimpleStmt → Option Nat × List StopAction
  | .readPidVar _ _ => (some env.recordedPid, [])
  | .pkillParent _ => (pv, [.killChildrenOf (pv.getD 0)])
  | .pkillPattern pat => (pv, [.killMatching pat])
  | .hook s => (pv, [.runHook s])

/-- Bash semantics of a straight-line block. -/
def evalSimples (env : StopEnv) (pv : Option Nat) :
    List SimpleStmt → Option Nat × List StopAction
  | [] => (pv, [])
  | s :: rest =>
      let (pv2, acts) := evalSimple env pv s
      let (pv3, acts2) := evalSimples env pv2 rest
      (pv3, acts ++ acts2)

/-- Bash semantics of a stop-script statement: `if [ -f file ]` selects the
branch by the file's existence. -/
def evalStop (env : StopEnv) (pv : Option Nat) :
    StopStmt → Option Nat × List StopAction
  | .simple s => evalSimple env pv s
  | .ifFileThenElse _ thn els =>
      evalSimples env pv (if env.pidFilePresent then thn else els)

/-- Bash semantics of a whole stop script. -/
def evalStopProgram (env : StopEnv) (pv : Option Nat) :
    List StopStmt → List StopAction
  | [] => []
  | s :: rest =>
      let (pv2, acts) := evalStop env pv s
      acts ++ evalStopProgram env pv2 rest

/-- Running a generated stop script from the top, with no shell variables
set. -/
def run_stop_script (stmts : List StopStmt) (env : StopEnv) : List StopAction :=
  evalStopProgram env none stmts

/-- C2: when the pid file exists, the stop script reads the recorded pid and
terminates only that pid's children (a parent-relative kill; the recorded
pid is never killed directly); when the pid file is absent it performs a
broad pattern kill of `python` processes; and the configured after-stop hook
is the last action, executed unconditionally in both branches. -/
theorem stop_script_behavior (config : Config) (host : String) (node_rank : Nat)
    (env : StopEnv) :
    run_stop_script (generate_stop_script config host node_rank).2 env =
      (if env.pidFilePresent then [StopAction.killChildrenOf env.recordedPid]
       else [StopAction.killMatching "python"])
        ++ [StopAction.runHook (after_stop_of config)] ∧
    (run_stop_script (generate_stop_script config host node_rank).2 env).getLast? =
      some (StopAction.runHook (after_stop_of config)) ∧
    (run_stop_script (generate_stop_script config host node_rank).2 env).all
      (fun a => !(isDirectKill env.recordedPid a)) = true := by
  have hmain : run_stop_script (generate_stop_script config host node_rank).2 env =
      (if env.pidFilePresent then [StopAction.killChildrenOf env.recordedPid]
       else [StopAction.killMatching "python"])
        ++ [StopAction.runHook (after_stop_of config)] := by
    cases h : env.pidFilePresent <;>
      simp [run_stop_script, generate_stop_script, stop_script_stmts,
        evalStopProgram, evalStop, evalSimples, evalSimple, h]
  refine ⟨hmain, ?_, ?_⟩ <;> rw [hmain] <;> cases env.pidFilePresent <;>
    simp [isDirectKill]

/-! ## ActionDispatcher (`get_action`, `flagscale/cli.py` lines 83-100) -/

/-- The names of the set flags, in the fixed order of the `flags` list at
lines 85-92: `[name for name, value in flags if value]`. -/
def flag_names (stop dryrun test query tune : Bool) : List String :=
  ([("stop", stop), ("dryrun", dryrun), ("test", test), ("query", query),
    ("auto_tune", tune)].filter fun f => f.2).map fun f => f.1

/-- The error message printed at line 95:
`f"Error: Flags are mutually exclusive: --{', --'.join(set_flags)}"`. -/
def mutex_msg (set_flags : List String) : String :=
  "Error: Flags are mutually exclusive: --" ++ String.intercalate ", --" set_flags

/-- Embedding of `get_action` (`cli.py` lines 83-100).  The first component
collects the messages printed to stderr (`typer.echo(…, err=True)`);
the second is the outcome: `Except.error 1` models `raise typer.Exit(1)` and
`Except.ok a` models returning action name `a`. -/
def get_action (stop dryrun test query tune : Bool) :
    List String × Except Nat String :=
  let set_flags := flag_names stop dryrun test query tune
  if set_flags.length > 1 then ([mutex_msg set_flags], .error 1)
  else if !set_flags.isEmpty then ([], .ok (set_flags.headD ""))
  else ([], .ok "run")

/-- C3: `get_action` returns `"run"` when no flag is set, the single set
flag's action name when exactly one is set, and fails — with a payload naming
all set flags — when two or more are set. -/
theorem get_action_spec (stop dryrun test query tune : Bool) :
    (flag_names stop dryrun test query tune = [] →
      get_action stop dryrun test query tune = ([], .ok "run")) ∧
    ((flag_names stop dryrun test query tune).length = 1 →
      get_action stop dryrun test query tune =
        ([], .ok ((flag_names stop dryrun test query tune).headD ""))) ∧
    (1 < (flag_names stop dryrun test query tune).length →
      get_action stop dryrun test query tune =
        ([mutex_msg (flag_names stop dryrun test query tune)], .error 1)) := by
  revert stop dryrun test query tune
  decide

/-- C3 witness: no flags gives `"run"`; only `--test` gives `"test"`;
`--stop --dryrun` fails naming both flags. -/
theorem get_action_spec_witness :
    flag_names false false false false false = [] ∧
    get_action false false false false false = ([], .ok "run") ∧
    flag_names false false true false false = ["test"] ∧
    get_action false false true false false = ([], .ok "test") ∧
    1 < (flag_names true true false false false).length ∧
    get_action true true false false false =
      ([mutex_msg (flag_names true true false false false)], .error 1) :=
  ⟨by decide,
   (get_action_spec false false false false false).1 (by decide),
   by decide,
   ((get_action_spec false false true false false).2.1 (by decide)).trans (by decide),
   by decide,
   (get_action_spec true true false false false).2.2 (by decide)⟩

/-- C8 counterexample: on conflicting flags (`--stop --dryrun`) `get_action`
prints an error message directly (its printed-output list is non-empty) and
exits with code 1; it does not raise a typed `ConflictingFlags` error, so the
core does print directly. -/
theorem get_action_prints_counterexample :
    (get_action true true false false false).1 =
      ["Error: Flags are mutually exclusive: --stop, --dryrun"] ∧
    (get_action true true false false false).1 ≠ [] ∧
    (get_action true true false false false).2 = .error 1 := by
  decide

/-- C8 amended: on conflicting flags, `get_action` prints (to stderr) exactly
one error message naming all set flags and exits with code 1, rather than
raising a typed `ConflictingFlags` error. -/
theorem get_action_conflict_prints (stop dryrun test query tune : Bool)
    (h : 1 < (flag_names stop dryrun test query tune).length) :
    get_action stop dryrun test query tune =
      ([mutex_msg (flag_names stop dryrun test query tune)], .error 1) ∧
    (get_action stop dryrun test query tune).1 ≠ [] := by
  revert h
  revert stop dryrun test query tune
  decide

/-- C8 amended witness: the `--stop --dryrun` conflict evaluated. -/
theorem get_action_conflict_prints_witness :
    1 < (flag_names true true false false false).length ∧
    get_action true true false false false =
      ([mutex_msg (flag_names true true false false false)], .error 1) :=
  ⟨by decide, (get_action_conflict_prints true true false false false (by decide)).1⟩

/-! ## Backend construction (`NativeCompressBackend.__init__`, lines 57-61,
and `_update_config_compress`, lines 35-53) -/

/-- Python's `str` of the `task_type` value interpolated into the assertion
message: `None` renders as `"None"`, a string renders as itself. -/
def pyOptionStr : Option String → String
  | none => "None"
  | some s => s

/-- Embedding of `_update_config_compress` (lines 35-53): resolves the
experiment directory, sets up the compress logging directories under
`compress_logs`, and defaults `tensorboard_dir`/`wandb_save_dir` under the
experiment directory; returns the updated configuration and the directories
created so far (the filesystem effects).  The Hydra-derived
`--config-path` argument of `_get_args_llmcompressor` and the
timestamp `rdzv_id` are runtime environment inputs outside this model. -/
def update_config_compress (cwd : String) (cfg : Config) : Config × List String :=
  let ed := setup_exp_dir cwd cfg.experiment.exp_dir
  let lc2 := (setup_logging_dirs cwd cfg.compress.system.logging ed.1 "compress_logs").1
  let lc3 := { lc2 with
    tensorboard_dir :=
      if pyTruthy lc2.tensorboard_dir then resolve_path cwd lc2.tensorboard_dir
      else joinPath ed.1 "tensorboard"
    wandb_save_dir :=
      if pyTruthy lc2.wandb_save_dir then resolve_path cwd lc2.wandb_save_dir
      else joinPath ed.1 "wandb" }
  ({ cfg with compress :=
      { cfg.compress with system := { cfg.compress.system with logging := lc3 } } },
   ed.2)

/-- The state `_prepare` leaves on the backend object. -/
structure PreparedBackend where
  config : Config
  user_envs : List (String × String)
  user_script : String
  resources : List HostEntry
deriving Repr, DecidableEq

/-- Embedding of `NativeCompressBackend.__init__` (lines 57-61): read
`task_type` with `getattr(…, "type", None)`, assert it is `"compress"` —
raising `AssertionError` with a message naming the unsupported type otherwise
— and only then run `_prepare` (which mutates the configuration and creates
directories).  The first component lists the directories created (filesystem
effects); `Except.error` models the raised `AssertionError` message. -/
def backendInit (cwd : String) (cfg : Config) :
    List String × Except String PreparedBackend :=
  if cfg.experiment.task.type? = some "compress" then
    let r := update_config_compress cwd cfg
    (r.2, .ok
      { config := r.1
        user_envs := r.1.experiment.envs
        user_script := r.1.experiment.task.entrypoint
        resources := parse_hostfile r.1.experiment.runner.hostfile })
  else ([], .error ("Unsupported task type: " ++ pyOptionStr cfg.experiment.task.type?))

/-- C10: constructing the backend from a configuration whose
`experiment.task.type` is anything other than `"compress"` (including the
attribute being absent, which reads as `None`) fails with an assertion error
naming the unsupported task type, with no configuration mutation and no
filesystem side effect (the effect list is empty and no prepared state is
produced). -/
theorem backendInit_rejects_non_compress (cwd : String) (cfg : Config)
    (h : cfg.experiment.task.type? ≠ some "compress") :
    backendInit cwd cfg =
      ([], .error ("Unsupported task type: " ++ pyOptionStr cfg.experiment.task.type?)) := by
  unfold backendInit
  rw [if_neg h]

/-- A configuration whose task has no `type` attribute. -/
def badConfig : Config :=
  { demoConfig with experiment :=
      { demoConfig.experiment with task := { type? := none, entrypoint := "x" } } }

/-- C10 witness: an absent task type reads as `None` and the constructor
fails with `"Unsupported task type: None"`, creating nothing. -/
theorem backendInit_rejects_non_compress_witness :
    badConfig.experiment.task.type? ≠ some "compress" ∧
    backendInit "/cwd" badConfig = ([], .error "Unsupported task type: None") :=
  ⟨by decide,
   (backendInit_rejects_non_compress "/cwd" badConfig (by decide)).trans (by decide)⟩

end FS
